import Mathlib

set_option linter.unusedVariables false

/-!
Verification of the map visualization widget: the `Map` component
(`frontend/src/metabase/visualizations/visualizations/Map.jsx`) and the
`LeafletHeatMap` component
(`frontend/src/metabase/visualizations/components/LeafletHeatMap.jsx`).

The embedding models the JavaScript values the two components inspect
(strings, numbers, booleans, `undefined`/`null` and their truthiness), the
settings dictionary restricted to the keys the components read, and the
column/series metadata.  External helpers that are imported from elsewhere
in the repository (`isLatitude`, `isLongitude`,
`hasLatitudeAndLongitudeColumns`, `isSameSeries`) are modelled where noted.
-/

/-- A JavaScript runtime value, as far as the map widget inspects one:
`undefined`, `null`, a string, an integer number, or a boolean. -/
inductive JsVal where
  | undef : JsVal
  | null : JsVal
  | str : String → JsVal
  | num : Int → JsVal
  | bool : Bool → JsVal
deriving DecidableEq, Repr

/-- JavaScript truthiness: `undefined`, `null`, the empty string, `0` and
`false` are falsy; every other modelled value is truthy. -/
def JsVal.truthy : JsVal → Bool
  | JsVal.undef => false
  | JsVal.null => false
  | JsVal.str s => decide (s ≠ "")
  | JsVal.num n => decide (n ≠ 0)
  | JsVal.bool b => b

/-- A result column as the widget reads it: its `name`, its `binning_info`
property (absent = `undef`), and the verdicts of the external
`isLatitude` / `isLongitude` predicates from `metabase/lib/schema_metadata`
(not part of the sources here), recorded per column. -/
structure Column where
  name : JsVal
  binning_info : JsVal
  isLatitude : Bool
  isLongitude : Bool
deriving DecidableEq, Repr

/-- The `data` of one series: `cols` and `rows`. -/
structure DataSet where
  cols : List Column
  rows : List (List JsVal)
deriving DecidableEq, Repr

/-- The `card` of one series, restricted to the one property the widget
reads: `display`. -/
structure Card where
  display : JsVal
deriving DecidableEq, Repr

/-- One element of the `series` array prop. -/
structure SingleSeries where
  card : Card
  data : DataSet
deriving DecidableEq, Repr

/-- The settings dictionary restricted to the keys the two components read.
Field ↔ key: `mapType` ↔ "map.type", `latitudeColumn` ↔
"map.latitude_column", `longitudeColumn` ↔ "map.longitude_column",
`metricColumn` ↔ "map.metric_column", `dimension` ↔ "map.dimension",
`metric` ↔ "map.metric", `pinType` ↔ "map.pin_type", `heatRadius` ↔
"map.heat.radius", `heatBlur` ↔ "map.heat.blur", `heatMinOpacity` ↔
"map.heat.min-opacity", `heatMaxZoom` ↔ "map.heat.max-zoom". -/
structure Settings where
  mapType : JsVal
  latitudeColumn : JsVal
  longitudeColumn : JsVal
  metricColumn : JsVal
  dimension : JsVal
  metric : JsVal
  pinType : JsVal
  heatRadius : JsVal
  heatBlur : JsVal
  heatMinOpacity : JsVal
  heatMaxZoom : JsVal
deriving DecidableEq, Repr

/-- `const PIN_MAP_TYPES = new Set(["pin", "heat", "grid"])`. -/
def PIN_MAP_TYPES : List String := ["pin", "heat", "grid"]

/-- `PIN_MAP_TYPES.has(v)`: a JavaScript `Set.has` compares with `===`, so a
non-string value is never a member. -/
def pinMapTypesHas : JsVal → Bool
  | JsVal.str s => decide (s ∈ PIN_MAP_TYPES)
  | _ => false

/-- The error type thrown by `checkRenderable`
(`ChartSettingsError(message, section)` from
`metabase/visualizations/lib/errors`). -/
structure ChartSettingsError where
  message : String
  errSection : String
deriving DecidableEq, Repr

/-- Modelled from the spec: `hasLatitudeAndLongitudeColumns` is imported
from `metabase/lib/schema_metadata`, which is not among the sources here;
per the spec's wording ("rows of columns including latitude/longitude"),
it holds when the columns contain a latitude column and a longitude
column. -/
def hasLatitudeAndLongitudeColumns (cols : List Column) : Bool :=
  cols.any (fun c => c.isLatitude) && cols.any (fun c => c.isLongitude)

/-- `_.findWhere(cols, { name: v })`: the first column whose `name` equals
`v`, if any. -/
def findWhereName (cols : List Column) (v : JsVal) : Option Column :=
  cols.find? (fun c => decide (c.name = v))

namespace Map

/-- The `getDefault` of the "map.type" setting:
`([{ card, data: { cols } }], settings) => ...`.  The JavaScript `switch` on
`card.display` (cases "state", "country", "pin_map", default) is written as
a chain of equality tests. -/
def mapTypeGetDefault (first : SingleSeries) (settings : Settings) : String :=
  if first.card.display = JsVal.str "state" ∨ first.card.display = JsVal.str "country" then
    "region"
  else if first.card.display = JsVal.str "pin_map" then
    "pin"
  else
    if hasLatitudeAndLongitudeColumns first.data.cols then
      let latitudeColumn := findWhereName first.data.cols settings.latitudeColumn
      let longitudeColumn := findWhereName first.data.cols settings.longitudeColumn
      match latitudeColumn, longitudeColumn with
      | some latCol, some lonCol =>
        if latCol.binning_info.truthy && lonCol.binning_info.truthy then
          "grid"
        else if settings.metricColumn.truthy then
          "heat"
        else
          "pin"
      | _, _ =>
        if settings.metricColumn.truthy then
          "heat"
        else
          "pin"
    else
      "region"

/-- The `getDefault` of the "map.pin_type" setting:
`(series, vizSettings) => ...`; reads `series[0].data.rows.length`. -/
def pinTypeGetDefault (first : SingleSeries) (vizSettings : Settings) : String :=
  if vizSettings.mapType = JsVal.str "heat" then
    "heat"
  else if vizSettings.mapType = JsVal.str "grid" then
    "grid"
  else if 1000 ≤ first.data.rows.length then
    "tiles"
  else
    "markers"

/-- The `getHidden` of the "map.pin_type" setting. -/
def pinTypeGetHidden (series : List SingleSeries) (vizSettings : Settings) : Bool :=
  !pinMapTypesHas vizSettings.mapType

/-- The `getHidden` of the "map.latitude_column" setting. -/
def latitudeColumnGetHidden (series : List SingleSeries) (vizSettings : Settings) : Bool :=
  !pinMapTypesHas vizSettings.mapType

/-- The `getHidden` of the "map.longitude_column" setting. -/
def longitudeColumnGetHidden (series : List SingleSeries) (vizSettings : Settings) : Bool :=
  !pinMapTypesHas vizSettings.mapType

/-- The `getHidden` of the "map.metric_column" setting. -/
def metricColumnGetHidden (series : List SingleSeries) (vizSettings : Settings) : Bool :=
  !pinMapTypesHas vizSettings.mapType ||
    (decide (vizSettings.pinType ≠ JsVal.str "heat") &&
      decide (vizSettings.pinType ≠ JsVal.str "grid"))

/-- The `getHidden` of the "map.region" setting. -/
def regionGetHidden (series : List SingleSeries) (vizSettings : Settings) : Bool :=
  decide (vizSettings.mapType ≠ JsVal.str "region")

/-- The `getHidden` of the "map.metric" setting. -/
def metricGetHidden (series : List SingleSeries) (vizSettings : Settings) : Bool :=
  decide (vizSettings.mapType ≠ JsVal.str "region")

/-- The `getHidden` of the "map.dimension" setting. -/
def dimensionGetHidden (series : List SingleSeries) (vizSettings : Settings) : Bool :=
  decide (vizSettings.mapType ≠ JsVal.str "region")

/-- The `getHidden` of the "map.heat.radius" setting. -/
def heatRadiusGetHidden (series : List SingleSeries) (vizSettings : Settings) : Bool :=
  decide (vizSettings.mapType ≠ JsVal.str "heat")

/-- The `getHidden` of the "map.heat.blur" setting. -/
def heatBlurGetHidden (series : List SingleSeries) (vizSettings : Settings) : Bool :=
  decide (vizSettings.mapType ≠ JsVal.str "heat")

/-- The `getHidden` of the "map.heat.min-opacity" setting. -/
def heatMinOpacityGetHidden (series : List SingleSeries) (vizSettings : Settings) : Bool :=
  decide (vizSettings.mapType ≠ JsVal.str "heat")

/-- The `getHidden` of the "map.heat.max-zoom" setting. -/
def heatMaxZoomGetHidden (series : List SingleSeries) (vizSettings : Settings) : Bool :=
  decide (vizSettings.mapType ≠ JsVal.str "heat")

/-- `Map.checkRenderable([{ data: { cols, rows } }], settings)`: throws a
`ChartSettingsError` when a required column setting is falsy, otherwise
returns normally.  The thrown error is modelled as `Except.error`. -/
def checkRenderable (first : SingleSeries) (settings : Settings) :
    Except ChartSettingsError Unit :=
  if pinMapTypesHas settings.mapType then
    if !settings.longitudeColumn.truthy || !settings.latitudeColumn.truthy then
      Except.error
        ⟨"Please select longitude and latitude columns in the chart settings.", "Data"⟩
    else
      Except.ok ()
  else if settings.mapType = JsVal.str "region" then
    if !settings.dimension.truthy || !settings.metric.truthy then
      Except.error
        ⟨"Please select region and metric columns in the chart settings.", "Data"⟩
    else
      Except.ok ()
  else
    Except.ok ()

end Map

/-- Whether the column named by the setting value `v` exists among `cols`
and carries `binning_info` (claim-side notion for C2). -/
def namedColumnCarriesBinning (cols : List Column) (v : JsVal) : Bool :=
  match findWhereName cols v with
  | some c => c.binning_info.truthy
  | none => false

/-- The default-selection algorithm as claim C2 words it: "state"/"country"
give "region"; "pin_map" gives "pin"; otherwise, with latitude and
longitude columns present, "grid" when both the column named by
`map.latitude_column` and the one named by `map.longitude_column` exist and
carry `binning_info`, else "heat" when `map.metric_column` is set, else
"pin"; without latitude/longitude columns, "region". -/
def claimedMapTypeDefault (first : SingleSeries) (settings : Settings) : String :=
  if first.card.display = JsVal.str "state" ∨ first.card.display = JsVal.str "country" then
    "region"
  else if first.card.display = JsVal.str "pin_map" then
    "pin"
  else if hasLatitudeAndLongitudeColumns first.data.cols then
    if namedColumnCarriesBinning first.data.cols settings.latitudeColumn &&
        namedColumnCarriesBinning first.data.cols settings.longitudeColumn then
      "grid"
    else if settings.metricColumn.truthy then
      "heat"
    else
      "pin"
  else
    "region"

/-- The default-selection algorithm as claim C6 words it: "heat" when
`map.type` is "heat"; otherwise "grid" when `map.type` is "grid"; otherwise
"tiles" when the first series has at least 1000 data rows; otherwise
"markers". -/
def claimedPinTypeDefault (first : SingleSeries) (vizSettings : Settings) : String :=
  if vizSettings.mapType = JsVal.str "heat" then
    "heat"
  else if vizSettings.mapType = JsVal.str "grid" then
    "grid"
  else if first.data.rows.length ≥ 1000 then
    "tiles"
  else
    "markers"

/-- The props of the `Map` component, restricted to the fields its methods
read: `width`, `height`, `series`, and the computed `settings`. -/
structure MapProps where
  width : Int
  height : Int
  series : List SingleSeries
  settings : Settings
deriving DecidableEq, Repr

/-- A React element returned by `Map.render`: either a `PinMap` element or
a `ChoroplethMap` element, each receiving the spread props
(`{...this.props}`). -/
inductive RenderedElement where
  | pinMap : MapProps → RenderedElement
  | choroplethMap : MapProps → RenderedElement
deriving DecidableEq, Repr

/-- The rendering strategy a render output embodies: the pin/heat/grid
layer (`PinMap`), the choropleth renderer (`ChoroplethMap`), or no element
at all. -/
inductive RenderStrategy where
  | pinStrategy : RenderStrategy
  | choroplethStrategy : RenderStrategy
  | noElement : RenderStrategy
deriving DecidableEq, Repr

/-- The strategy of a render output, forgetting the forwarded props. -/
def strategyOf : Option RenderedElement → RenderStrategy
  | some (RenderedElement.pinMap _) => RenderStrategy.pinStrategy
  | some (RenderedElement.choroplethMap _) => RenderStrategy.choroplethStrategy
  | none => RenderStrategy.noElement

/-- Modelled from the spec: `isSameSeries` is imported from
`metabase/visualizations/lib/utils`, which is not among the sources here.
The spec says the widget "re-renders when settings or underlying data
change", so sameness of two series arrays is modelled as structural
equality (same underlying data and same per-card state). -/
def isSameSeries (a b : List SingleSeries) : Bool :=
  decide (a = b)

namespace Map

/-- `Map.render()`: reads `settings["map.type"]` from the props; a pin-map
type renders `<PinMap {...this.props} />`, "region" renders
`<ChoroplethMap {...this.props} />`, anything else falls through the `if`
chain and returns `undefined` (modelled as `none`). -/
def render (props : MapProps) : Option RenderedElement :=
  let type := props.settings.mapType
  if pinMapTypesHas type then
    some (RenderedElement.pinMap props)
  else if type = JsVal.str "region" then
    some (RenderedElement.choroplethMap props)
  else
    none

/-- `Map.shouldComponentUpdate(nextProps, nextState)`: compares the size
(`width`, `height`) and the series (via `isSameSeries`) of the current and
next props; updates unless both are unchanged. -/
def shouldComponentUpdate (props nextProps : MapProps) : Bool :=
  let sameSize := decide (props.width = nextProps.width) &&
    decide (props.height = nextProps.height)
  let sameSeries := isSameSeries props.series nextProps.series
  !(sameSize && sameSeries)

end Map

/-- The props of the `LeafletHeatMap` component, restricted to the fields
`componentDidUpdate` reads: `points`, `max` and `settings`. -/
structure HeatMapProps where
  points : List JsVal
  max : JsVal
  settings : Settings
deriving DecidableEq, Repr

/-- The options object passed to `heatLayer.setOptions`. -/
structure HeatOptions where
  max : JsVal
  maxZoom : JsVal
  minOpacity : JsVal
  radius : JsVal
  blur : JsVal
deriving DecidableEq, Repr

/-- A thrown JavaScript error, as far as the catch block inspects it: its
`message` property (`undef` when it has none). -/
structure JsError where
  message : JsVal
deriving DecidableEq, Repr

/-- The argument passed to `this.props.onRenderError`: either the thrown
error's message, or the error object itself. -/
inductive RenderErrorArg where
  | fromMessage : JsVal → RenderErrorArg
  | fromError : JsError → RenderErrorArg
deriving DecidableEq, Repr

/-- `err.message || err`: the message when it is truthy, otherwise the
error itself. -/
def messageOrSelf (e : JsError) : RenderErrorArg :=
  if e.message.truthy then
    RenderErrorArg.fromMessage e.message
  else
    RenderErrorArg.fromError e

/-- The behaviour of the external leaflet heat layer: for each call made by
`componentDidUpdate`, whether it throws, and with which error, as a
function of the argument passed. -/
structure HeatLayerBehavior where
  setOptionsThrows : HeatOptions → Option JsError
  setLatLngsThrows : List JsVal → Option JsError

/-- What one run of `LeafletHeatMap.componentDidUpdate` did: the options
passed to `heatLayer.setOptions`, the points passed to
`heatLayer.setLatLngs` (`none` when the call was never reached), and the
argument passed to `this.props.onRenderError` (`none` when it was not
called). -/
structure UpdateTrace where
  setOptionsArg : HeatOptions
  setLatLngsArg : Option (List JsVal)
  onRenderErrorArg : Option RenderErrorArg
deriving DecidableEq, Repr

namespace LeafletHeatMap

/-- The options object `componentDidUpdate` builds from its props:
`{ max: max, maxZoom: settings["map.heat.max-zoom"], minOpacity:
settings["map.heat.min-opacity"], radius: settings["map.heat.radius"],
blur: settings["map.heat.blur"] }`. -/
def heatOptionsOf (props : HeatMapProps) : HeatOptions :=
  { max := props.max,
    maxZoom := props.settings.heatMaxZoom,
    minOpacity := props.settings.heatMinOpacity,
    radius := props.settings.heatRadius,
    blur := props.settings.heatBlur }

/-- The `try` block of `componentDidUpdate`: calls
`heatLayer.setOptions(...)` then `heatLayer.setLatLngs(points)`, stopping
at the first call that throws.  Returns the calls made (their arguments)
and the thrown error, if any. -/
def tryBlock (props : HeatMapProps) (layer : HeatLayerBehavior) :
    (HeatOptions × Option (List JsVal)) × Option JsError :=
  let opts := heatOptionsOf props
  match layer.setOptionsThrows opts with
  | some e => ((opts, none), some e)
  | none =>
    match layer.setLatLngsThrows props.points with
    | some e => ((opts, some props.points), some e)
    | none => ((opts, some props.points), none)

/-- `LeafletHeatMap.componentDidUpdate(prevProps, prevState)` (the part
after the `super` call): runs the try block; a thrown error is caught and
forwarded as `this.props.onRenderError(err.message || err)`.  The function
is total: no exception escapes the block. -/
def componentDidUpdate (props : HeatMapProps) (layer : HeatLayerBehavior) :
    UpdateTrace :=
  match tryBlock props layer with
  | ((opts, pts), some e) =>
    { setOptionsArg := opts, setLatLngsArg := pts,
      onRenderErrorArg := some (messageOrSelf e) }
  | ((opts, pts), none) =>
    { setOptionsArg := opts, setLatLngsArg := pts, onRenderErrorArg := none }

end LeafletHeatMap

/-- A settings object with every key absent (`undefined`). -/
def sampleSettings : Settings :=
  { mapType := JsVal.undef, latitudeColumn := JsVal.undef,
    longitudeColumn := JsVal.undef, metricColumn := JsVal.undef,
    dimension := JsVal.undef, metric := JsVal.undef, pinType := JsVal.undef,
    heatRadius := JsVal.undef, heatBlur := JsVal.undef,
    heatMinOpacity := JsVal.undef, heatMaxZoom := JsVal.undef }

/-- Concrete props whose `map.type` setting is `t`. -/
def sampleProps (t : JsVal) : MapProps :=
  { width := 0, height := 0, series := [],
    settings := { sampleSettings with mapType := t } }

/-- A concrete one-element series. -/
def sampleSingleSeries : SingleSeries :=
  { card := { display := JsVal.undef }, data := { cols := [], rows := [] } }

/-- A concrete derivation of computed settings from a series (the host
framework computes the settings prop from the series). -/
def settingsForSample (l : List SingleSeries) : Settings :=
  if l = [] then sampleSettings
  else { sampleSettings with mapType := JsVal.str "pin" }

/-- Concrete current props for the update-check witness. -/
def sampleCurrentProps : MapProps :=
  { width := 0, height := 0, series := [], settings := settingsForSample [] }

/-- Concrete next props for the update-check witness: the series gained a
row set and the derived settings changed with it. -/
def sampleNextProps : MapProps :=
  { width := 0, height := 0, series := [sampleSingleSeries],
    settings := settingsForSample [sampleSingleSeries] }

/-- Membership of "region" in the pin-map set is false. -/
theorem pinMapTypesHas_region : pinMapTypesHas (JsVal.str "region") = false := by
  decide

/-- `pinMapTypesHas` holds exactly on the strings "pin", "heat", "grid". -/
theorem pinMapTypesHas_iff (v : JsVal) :
    pinMapTypesHas v = true ↔
      v = JsVal.str "pin" ∨ v = JsVal.str "heat" ∨ v = JsVal.str "grid" := by
  cases v <;> simp [pinMapTypesHas, PIN_MAP_TYPES]

/-- C1. `Map.checkRenderable` throws a `ChartSettingsError` if and only if
required columns are unselected: for a pin-map type ("pin", "heat", "grid")
with a falsy longitude or latitude column it throws "Please select
longitude and latitude columns in the chart settings."; for type "region"
with a falsy dimension or metric it throws "Please select region and metric
columns in the chart settings."; in every other case it returns normally. -/
theorem checkRenderable_throws_iff_required_columns_missing
    (first : SingleSeries) (s : Settings) :
    (Map.checkRenderable first s =
        Except.error
          ⟨"Please select longitude and latitude columns in the chart settings.", "Data"⟩ ↔
      pinMapTypesHas s.mapType = true ∧
        (s.longitudeColumn.truthy = false ∨ s.latitudeColumn.truthy = false)) ∧
    (Map.checkRenderable first s =
        Except.error
          ⟨"Please select region and metric columns in the chart settings.", "Data"⟩ ↔
      s.mapType = JsVal.str "region" ∧
        (s.dimension.truthy = false ∨ s.metric.truthy = false)) ∧
    (Map.checkRenderable first s = Except.ok () ↔
      ¬(pinMapTypesHas s.mapType = true ∧
          (s.longitudeColumn.truthy = false ∨ s.latitudeColumn.truthy = false)) ∧
      ¬(s.mapType = JsVal.str "region" ∧
          (s.dimension.truthy = false ∨ s.metric.truthy = false))) := by
  unfold Map.checkRenderable
  by_cases hpin : pinMapTypesHas s.mapType = true
  · have hreg : ¬s.mapType = JsVal.str "region" := by
      intro h
      rw [h, pinMapTypesHas_region] at hpin
      exact Bool.false_ne_true hpin
    cases hlon : s.longitudeColumn.truthy <;>
      cases hlat : s.latitudeColumn.truthy <;>
        simp [hpin, hreg, hlon, hlat]
  · have hpin' : pinMapTypesHas s.mapType = false := by
      cases h : pinMapTypesHas s.mapType
      · rfl
      · exact absurd h hpin
    by_cases hreg : s.mapType = JsVal.str "region"
    · cases hdim : s.dimension.truthy <;>
        cases hmet : s.metric.truthy <;>
          simp [hpin', hreg, hdim, hmet, pinMapTypesHas, PIN_MAP_TYPES]
    · simp [hpin', hreg]

/-- C2. The `getDefault` of "map.type" computes exactly the algorithm the
claim states. -/
theorem mapType_default_matches_claimed_algorithm
    (first : SingleSeries) (s : Settings) :
    Map.mapTypeGetDefault first s = claimedMapTypeDefault first s := by
  unfold Map.mapTypeGetDefault claimedMapTypeDefault namedColumnCarriesBinning
  cases hlat : findWhereName first.data.cols s.latitudeColumn <;>
    cases hlon : findWhereName first.data.cols s.longitudeColumn <;>
      simp [hlat, hlon]

/-- C6. The `getDefault` of "map.pin_type" computes exactly the algorithm
the claim states. -/
theorem pinType_default_matches_claimed_algorithm
    (first : SingleSeries) (s : Settings) :
    Map.pinTypeGetDefault first s = claimedPinTypeDefault first s := rfl

/-- C7. The visibility rules of the settings schema: "map.pin_type",
"map.latitude_column" and "map.longitude_column" are hidden exactly when
`map.type` is not one of "pin", "heat", "grid"; "map.region", "map.metric"
and "map.dimension" are hidden exactly when `map.type` is not "region";
"map.heat.radius", "map.heat.blur", "map.heat.min-opacity" and
"map.heat.max-zoom" are hidden exactly when `map.type` is not "heat". -/
theorem getHidden_visibility_rules (series : List SingleSeries) (s : Settings) :
    (Map.pinTypeGetHidden series s = true ↔
      ¬(s.mapType = JsVal.str "pin" ∨ s.mapType = JsVal.str "heat" ∨
        s.mapType = JsVal.str "grid")) ∧
    (Map.latitudeColumnGetHidden series s = true ↔
      ¬(s.mapType = JsVal.str "pin" ∨ s.mapType = JsVal.str "heat" ∨
        s.mapType = JsVal.str "grid")) ∧
    (Map.longitudeColumnGetHidden series s = true ↔
      ¬(s.mapType = JsVal.str "pin" ∨ s.mapType = JsVal.str "heat" ∨
        s.mapType = JsVal.str "grid")) ∧
    (Map.regionGetHidden series s = true ↔ ¬s.mapType = JsVal.str "region") ∧
    (Map.metricGetHidden series s = true ↔ ¬s.mapType = JsVal.str "region") ∧
    (Map.dimensionGetHidden series s = true ↔ ¬s.mapType = JsVal.str "region") ∧
    (Map.heatRadiusGetHidden series s = true ↔ ¬s.mapType = JsVal.str "heat") ∧
    (Map.heatBlurGetHidden series s = true ↔ ¬s.mapType = JsVal.str "heat") ∧
    (Map.heatMinOpacityGetHidden series s = true ↔ ¬s.mapType = JsVal.str "heat") ∧
    (Map.heatMaxZoomGetHidden series s = true ↔ ¬s.mapType = JsVal.str "heat") := by
  have hpinF : pinMapTypesHas s.mapType = false ↔
      ¬(s.mapType = JsVal.str "pin" ∨ s.mapType = JsVal.str "heat" ∨
        s.mapType = JsVal.str "grid") := by
    rw [← pinMapTypesHas_iff]
    cases pinMapTypesHas s.mapType <;> simp
  refine ⟨?_, ?_, ?_, ?_, ?_, ?_, ?_, ?_, ?_, ?_⟩ <;>
    simp [Map.pinTypeGetHidden, Map.latitudeColumnGetHidden,
      Map.longitudeColumnGetHidden, Map.regionGetHidden, Map.metricGetHidden,
      Map.dimensionGetHidden, Map.heatRadiusGetHidden, Map.heatBlurGetHidden,
      Map.heatMinOpacityGetHidden, Map.heatMaxZoomGetHidden, hpinF]

/-- C3. The choice among the three rendering strategies (`PinMap`,
`ChoroplethMap`, no element) made by `Map.render` is determined solely by
`settings["map.type"]`, and all three strategies occur. -/
theorem render_strategy_determined_by_mapType :
    (∀ p q : MapProps, p.settings.mapType = q.settings.mapType →
      strategyOf (Map.render p) = strategyOf (Map.render q)) ∧
    (∀ st : RenderStrategy, ∃ p : MapProps, strategyOf (Map.render p) = st) := by
  constructor
  · intro p q h
    unfold Map.render
    rw [h]
    by_cases h1 : pinMapTypesHas q.settings.mapType = true
    · simp [h1, strategyOf]
    · have h1' : pinMapTypesHas q.settings.mapType = false := by
        cases hh : pinMapTypesHas q.settings.mapType
        · rfl
        · exact absurd hh h1
      by_cases h2 : q.settings.mapType = JsVal.str "region" <;>
        simp [h1', h2, strategyOf, pinMapTypesHas_region]
  · intro st
    cases st with
    | pinStrategy => exact ⟨sampleProps (JsVal.str "pin"), by decide⟩
    | choroplethStrategy => exact ⟨sampleProps (JsVal.str "region"), by decide⟩
    | noElement => exact ⟨sampleProps JsVal.undef, by decide⟩

/-- C4. `Map.shouldComponentUpdate` returns true whenever the settings or
the series of the next props differ from the current props, and returns
false only when the size, the series, and the computed settings are all
unchanged.  The hypotheses record that the computed settings prop is
derived from the series by the host framework. -/
theorem shouldComponentUpdate_true_when_settings_or_data_change
    (settingsFor : List SingleSeries → Settings) (p np : MapProps)
    (hp : p.settings = settingsFor p.series)
    (hnp : np.settings = settingsFor np.series) :
    (np.settings ≠ p.settings ∨ np.series ≠ p.series →
      Map.shouldComponentUpdate p np = true) ∧
    (Map.shouldComponentUpdate p np = false →
      np.settings = p.settings ∧ np.series = p.series ∧
        np.width = p.width ∧ np.height = p.height) := by
  have hser : np.series = p.series → np.settings = p.settings := by
    intro h
    rw [hp, hnp, h]
  constructor
  · intro h
    have hne : np.series ≠ p.series := by
      rcases h with h | h
      · exact fun hs => h (hser hs)
      · exact h
    have hd : decide (p.series = np.series) = false :=
      decide_eq_false fun hh => hne hh.symm
    simp [Map.shouldComponentUpdate, isSameSeries, hd]
  · intro h
    simp [Map.shouldComponentUpdate, isSameSeries] at h
    obtain ⟨⟨hw, hh⟩, hs⟩ := h
    exact ⟨hser hs.symm, hs.symm, hw.symm, hh.symm⟩

/-- Witness for C4 at concrete props: the next props carry a new series and
correspondingly changed derived settings, and the component updates. -/
theorem shouldComponentUpdate_change_witness :
    (sampleNextProps.settings ≠ sampleCurrentProps.settings ∨
        sampleNextProps.series ≠ sampleCurrentProps.series →
      Map.shouldComponentUpdate sampleCurrentProps sampleNextProps = true) ∧
    (Map.shouldComponentUpdate sampleCurrentProps sampleNextProps = false →
      sampleNextProps.settings = sampleCurrentProps.settings ∧
        sampleNextProps.series = sampleCurrentProps.series ∧
        sampleNextProps.width = sampleCurrentProps.width ∧
        sampleNextProps.height = sampleCurrentProps.height) :=
  shouldComponentUpdate_true_when_settings_or_data_change settingsForSample
    sampleCurrentProps sampleNextProps (by decide) (by decide)

/-- C5. Any error thrown inside the try block of
`LeafletHeatMap.componentDidUpdate` (by `setOptions` or `setLatLngs`) is
caught and forwarded to `onRenderError` as the error's message, or as the
error itself when its message is falsy; when nothing is thrown,
`onRenderError` is not called.  `componentDidUpdate` is a total function
into `UpdateTrace`, so no exception escapes the block. -/
theorem componentDidUpdate_catches_and_forwards_errors
    (props : HeatMapProps) (layer : HeatLayerBehavior) :
    (∀ e : JsError, (LeafletHeatMap.tryBlock props layer).2 = some e →
      (LeafletHeatMap.componentDidUpdate props layer).onRenderErrorArg =
        some (if e.message.truthy = true then
                RenderErrorArg.fromMessage e.message
              else
                RenderErrorArg.fromError e)) ∧
    ((LeafletHeatMap.tryBlock props layer).2 = none →
      (LeafletHeatMap.componentDidUpdate props layer).onRenderErrorArg =
        none) := by
  unfold LeafletHeatMap.componentDidUpdate
  rcases htb : LeafletHeatMap.tryBlock props layer with ⟨⟨opts, pts⟩, thrown⟩
  cases thrown with
  | none => simp
  | some e =>
    constructor
    · intro e' he'
      simp at he'
      subst he'
      simp [messageOrSelf]
    · intro hn
      simp at hn

/-- C8. On every update the computed props are forwarded unchanged to the
mapping library: the options passed to `heatLayer.setOptions` are exactly
`max`, `map.heat.max-zoom`, `map.heat.min-opacity`, `map.heat.radius` and
`map.heat.blur` from the props, and the points passed to
`heatLayer.setLatLngs` (whenever the call is made, in particular whenever
`setOptions` does not throw) are exactly `props.points`. -/
theorem componentDidUpdate_forwards_props_unchanged
    (props : HeatMapProps) (layer : HeatLayerBehavior) :
    (LeafletHeatMap.componentDidUpdate props layer).setOptionsArg =
      { max := props.max,
        maxZoom := props.settings.heatMaxZoom,
        minOpacity := props.settings.heatMinOpacity,
        radius := props.settings.heatRadius,
        blur := props.settings.heatBlur } ∧
    ((LeafletHeatMap.componentDidUpdate props layer).setLatLngsArg = none ∨
      (LeafletHeatMap.componentDidUpdate props layer).setLatLngsArg =
        some props.points) ∧
    (layer.setOptionsThrows (LeafletHeatMap.heatOptionsOf props) = none →
      (LeafletHeatMap.componentDidUpdate props layer).setLatLngsArg =
        some props.points) := by
  have hopts : LeafletHeatMap.heatOptionsOf props =
      { max := props.max,
        maxZoom := props.settings.heatMaxZoom,
        minOpacity := props.settings.heatMinOpacity,
        radius := props.settings.heatRadius,
        blur := props.settings.heatBlur } := rfl
  cases h1 : layer.setOptionsThrows (LeafletHeatMap.heatOptionsOf props) with
  | some e =>
    simp [LeafletHeatMap.componentDidUpdate, LeafletHeatMap.tryBlock,
      ← hopts, h1]
  | none =>
    cases h2 : layer.setLatLngsThrows props.points with
    | some e =>
      simp [LeafletHeatMap.componentDidUpdate, LeafletHeatMap.tryBlock,
        ← hopts, h1, h2]
    | none =>
      simp [LeafletHeatMap.componentDidUpdate, LeafletHeatMap.tryBlock,
        ← hopts, h1, h2]

/-- C9. For props whose `map.type` setting is none of "pin", "heat",
"grid", "region" (for example `undefined` or an unknown string),
`Map.render` returns no element. -/
theorem render_none_for_unknown_mapType (p : MapProps)
    (h : ¬(p.settings.mapType = JsVal.str "pin" ∨
        p.settings.mapType = JsVal.str "heat" ∨
        p.settings.mapType = JsVal.str "grid" ∨
        p.settings.mapType = JsVal.str "region")) :
    Map.render p = none := by
  have hpin : pinMapTypesHas p.settings.mapType = false := by
    cases hh : pinMapTypesHas p.settings.mapType
    · rfl
    · rcases (pinMapTypesHas_iff _).mp hh with h1 | h1 | h1 <;>
        exact absurd (by tauto) h
  have hreg : ¬p.settings.mapType = JsVal.str "region" := fun hc => h (by tauto)
  unfold Map.render
  simp [hpin, hreg]

/-- Witness for C9 at a concrete input: with `map.type` left `undefined`
the component renders nothing. -/
theorem render_none_witness :
    Map.render (sampleProps JsVal.undef) = none :=
  render_none_for_unknown_mapType (sampleProps JsVal.undef) (by decide)

/-- C10. `Map.checkRenderable` never requires a metric column for pin-map
types: with `map.type` "heat" or "grid" and truthy latitude and longitude
column settings it returns normally whatever `map.metric_column` is; and
with `map.type` outside pin/heat/grid/region it returns normally whatever
the column settings are. -/
theorem checkRenderable_no_metric_required_for_pin_types
    (first : SingleSeries) (s : Settings) :
    ((s.mapType = JsVal.str "heat" ∨ s.mapType = JsVal.str "grid") →
      s.latitudeColumn.truthy = true → s.longitudeColumn.truthy = true →
      Map.checkRenderable first s = Except.ok ()) ∧
    (¬(s.mapType = JsVal.str "pin" ∨ s.mapType = JsVal.str "heat" ∨
        s.mapType = JsVal.str "grid" ∨ s.mapType = JsVal.str "region") →
      Map.checkRenderable first s = Except.ok ()) := by
  constructor
  · intro h hlat hlon
    have hpin : pinMapTypesHas s.mapType = true :=
      (pinMapTypesHas_iff _).mpr (by tauto)
    unfold Map.checkRenderable
    simp [hpin, hlat, hlon]
  · intro h
    have hpin : pinMapTypesHas s.mapType = false := by
      cases hh : pinMapTypesHas s.mapType
      · rfl
      · rcases (pinMapTypesHas_iff _).mp hh with h1 | h1 | h1 <;>
          exact absurd (by tauto) h
    have hreg : ¬s.mapType = JsVal.str "region" := fun hc => h (by tauto)
    unfold Map.checkRenderable
    simp [hpin, hreg]
